import Mathlib

/-!
Verification of the voyager-stats request-normalization and cache-control core.

The definitions below are a shallow embedding of `src/lib/handler.js`
(`getStatsWithFilterAndCaching`, `setCacheControlForStatsResponse`) and of
`src/lib/stats-fetchers.js` (`fetchRetrievalSuccessRate`,
`fetchMinersRSRSummary`).  Strings stand for JavaScript strings, `Option
String` for a query parameter that may be absent (`null`), and the wall clock
enters as explicit `todayStr` / `boundary` parameters (the JS computes them
from `Date.now()`).
-/

namespace VoyagerStats

/-- JavaScript `<` on strings: lexicographic comparison of code units
(all strings involved here are ASCII, so comparing `Char`s is faithful). -/
def jsLtChars : List Char → List Char → Bool
  | _, [] => false
  | [], _ :: _ => true
  | a :: as, b :: bs => if a < b then true else if b < a then false else jsLtChars as bs

/-- JavaScript `a < b` for strings. -/
def jsLt (a b : String) : Bool := jsLtChars a.data b.data

/-- JavaScript `a >= b` for strings, i.e. `!(a < b)`. -/
def jsGE (a b : String) : Bool := !(jsLt a b)

/-- `\d` of the JS regex: an ASCII decimal digit. -/
def digitChar (c : Char) : Bool := c.isDigit

/-- The first capture group of `/^(\d{4}-\d{2}-\d{2})(T\d{2}:\d{2}:\d{2}\.\d{3}Z)?$/`:
exactly ten characters shaped `YYYY-MM-DD`. -/
def bareDateChars : List Char → Bool
  | [y1, y2, y3, y4, h1, m1, m2, h2, d1, d2] =>
      digitChar y1 && digitChar y2 && digitChar y3 && digitChar y4 && h1 = '-' &&
      digitChar m1 && digitChar m2 && h2 = '-' && digitChar d1 && digitChar d2
  | _ => false

/-- The second capture group of the regex: exactly fourteen characters shaped
`Thh:mm:ss.sssZ`. -/
def timeSuffixChars : List Char → Bool
  | [tc, h1, h2, c1, n1, n2, c2, s1, s2, dc, f1, f2, f3, zc] =>
      tc = 'T' && digitChar h1 && digitChar h2 && c1 = ':' && digitChar n1 &&
      digitChar n2 && c2 = ':' && digitChar s1 && digitChar s2 && dc = '.' &&
      digitChar f1 && digitChar f2 && digitChar f3 && zc = 'Z'
  | _ => false

/-- Model of `s.match(/^(\d{4}-\d{2}-\d{2})(T\d{2}:\d{2}:\d{2}\.\d{3}Z)?$/)`:
`none` when the regex does not match; `some (date, hadTime)` on a match, where
`date` is capture group 1 (the bare `YYYY-MM-DD` prefix) and `hadTime` records
whether capture group 2 (the timestamp suffix) was present.  Both alternatives
of the regex have fixed length (10 and 24 characters), so the match is decided
by exact-length case analysis. -/
def matchDateTime (s : String) : Option (String × Bool) :=
  if bareDateChars s.data then some (s, false)
  else if bareDateChars (s.data.take 10) && timeSuffixChars (s.data.drop 10) then
    some (String.mk (s.data.take 10), true)
  else none

/-- One hexadecimal digit, uppercase, as used by percent-encoding. -/
def hexDigitChar (n : Nat) : Char :=
  if n < 10 then Char.ofNat (48 + n) else Char.ofNat (55 + n)

/-- UTF-8 bytes of one code point (URLSearchParams serializes the UTF-8
encoding of each value). -/
def utf8Bytes (c : Char) : List Nat :=
  let n := c.toNat
  if n < 128 then [n]
  else if n < 2048 then [192 + n / 64, 128 + n % 64]
  else if n < 65536 then [224 + n / 4096, 128 + (n / 64) % 64, 128 + n % 64]
  else [240 + n / 262144, 128 + (n / 4096) % 64, 128 + (n / 64) % 64, 128 + n % 64]

/-- Bytes that `application/x-www-form-urlencoded` serialization leaves
unescaped: ASCII alphanumerics and `*`, `-`, `.`, `_`. -/
def isFormSafeByte (b : Nat) : Bool :=
  (48 ≤ b && b ≤ 57) || (65 ≤ b && b ≤ 90) || (97 ≤ b && b ≤ 122) ||
  b = 42 || b = 45 || b = 46 || b = 95

/-- Serialization of one byte by `URLSearchParams.toString()`: space becomes
`+`, safe bytes stay themselves, everything else is `%XX` with uppercase hex. -/
def encodeFormByte (b : Nat) : String :=
  if b = 32 then "+"
  else if isFormSafeByte b then String.mk [Char.ofNat b]
  else String.mk ['%', hexDigitChar (b / 16), hexDigitChar (b % 16)]

/-- `application/x-www-form-urlencoded` encoding of one value, as
`URLSearchParams` produces it. -/
def urlencode (s : String) : String :=
  String.join (s.data.map (fun c => String.join ((utf8Bytes c).map encodeFormByte)))

/-- Model of `new URLSearchParams({ from, to }).toString()`: insertion order is
preserved, so `from` is always serialized before `to`. -/
def searchParamsFromTo (f t : String) : String :=
  "from=" ++ urlencode f ++ "&to=" ++ urlencode t

/-- `src/lib/typings.d.ts` `Filter`: the date range handed to the query layer.
The JS field names are `from` and `to`; both are Lean keywords, hence the
quoted identifiers. -/
structure Filter where
  «from» : String
  «to» : String
deriving DecidableEq, Repr

/-- JavaScript truthiness test `!v` for a possibly-absent string parameter:
true exactly for `null` (absent) and the empty string. -/
def blankParam : Option String → Bool
  | none => true
  | some s => s.isEmpty

/-- The value a parameter holds after the defaulting step: the supplied string
when it is non-blank, the default otherwise (`if (!to) to = today()`,
`if (!from) from = to`). -/
def resolveParam (raw : Option String) (dflt : String) : String :=
  match raw with
  | some s => if s.isEmpty then dflt else s
  | none => dflt

/-- Outcome of the normalization prefix of `getStatsWithFilterAndCaching`
(lines 105-150 of `src/lib/handler.js`): a redirect response (status 302 or
301, `cache-control` and `location` header values, and the `{ from, to }` pair
the location encodes), a thrown `http-assert` error (status code and message),
or fall-through to the query step with the canonical range. -/
inductive NormOutcome where
  | redirect (status : Nat) (cacheControl : String) (location : String) (range : Filter)
  | badRequest (statusCode : Nat) (message : String)
  | serve (range : Filter)
deriving DecidableEq, Repr

/-- The normalization prefix of `getStatsWithFilterAndCaching`, line by line:
default blank `to` to `today()`, then default blank `from` to `to`; if either
default fired, 302-redirect with a 10-minute cache.  Otherwise validate both
values against the date regex (`from` first), raising 400 on a mismatch; if
either value carried a timestamp suffix, trim it and 301-redirect with a
one-day cache (`max-age=${24 * 3600}` = 86400).  Otherwise fall through with
the canonical range. -/
def normalize (pathname : String) (fromRaw toRaw : Option String) (todayStr : String) :
    NormOutcome :=
  let to1 := resolveParam toRaw todayStr
  let from1 := resolveParam fromRaw to1
  if blankParam toRaw || blankParam fromRaw then
    NormOutcome.redirect 302 "public, max-age=600"
      (pathname ++ "?" ++ searchParamsFromTo from1 to1) ⟨from1, to1⟩
  else
    match matchDateTime from1 with
    | none =>
        NormOutcome.badRequest 400
          "\"from\" must have format YYYY-MM-DD or YYYY-MM-DDThh:mm:ss.sssZ"
    | some (fromDate, fromHadTime) =>
        let from2 := if fromHadTime then fromDate else from1
        match matchDateTime to1 with
        | none =>
            NormOutcome.badRequest 400
              "\"to\" must have format YYYY-MM-DD or YYYY-MM-DDThh:mm:ss.sssZ"
        | some (toDate, toHadTime) =>
            let to2 := if toHadTime then toDate else to1
            if fromHadTime || toHadTime then
              NormOutcome.redirect 301 "public, max-age=86400"
                (pathname ++ "?" ++ searchParamsFromTo from2 to2) ⟨from2, to2⟩
            else
              NormOutcome.serve ⟨from2, to2⟩

/-- `setCacheControlForStatsResponse` of `src/lib/handler.js`: the value of the
`cache-control` header on the data response.  `boundary` stands for
`getDayAsISOString(new Date(Date.now() - 3600_000))`; the comparison
`filter.to >= boundary` is JS string comparison.  `365 * 24 * 3600` =
31536000. -/
def setCacheControlForStatsResponse (filter : Filter) (boundary : String) : String :=
  if jsGE filter.«to» boundary then "public, max-age=600"
  else "public, max-age=31536000, immutable"

/-- Body of the HTTP response: empty (`res.end()` on redirects), plain text
(error messages), or the JSON-serialized query result. -/
inductive RespBody (α : Type) where
  | empty
  | text (msg : String)
  | jsonData (rows : α)
deriving DecidableEq, Repr

/-- The HTTP response surface the handler controls: status code and the
`cache-control` / `location` headers plus the body. -/
structure Response (α : Type) where
  statusCode : Nat
  cacheControl : Option String
  location : Option String
  body : RespBody α
deriving DecidableEq, Repr

/-- All of `getStatsWithFilterAndCaching` together with the `errorHandler`
branch for `http-assert` errors: a redirect outcome is emitted as-is with an
empty body; a `BadRequest` becomes a text response with the error's status
code and no extra headers; otherwise the query function runs on the canonical
range and the result is served as JSON with the cache policy of
`setCacheControlForStatsResponse`.  The query layer is the parameter
`fetchStatsFn`. -/
def getStatsWithFilterAndCaching (α : Type) (pathname : String)
    (fromRaw toRaw : Option String) (todayStr boundary : String)
    (fetchStatsFn : Filter → α) : Response α :=
  match normalize pathname fromRaw toRaw todayStr with
  | NormOutcome.redirect status cc loc _ =>
      ⟨status, some cc, some loc, RespBody.empty⟩
  | NormOutcome.badRequest code msg =>
      ⟨code, none, none, RespBody.text msg⟩
  | NormOutcome.serve range =>
      ⟨200, some (setCacheControlForStatsResponse range boundary), none,
        RespBody.jsonData (fetchStatsFn range)⟩

/-- A row of the `retrieval_stats` table.  `total` and `successful` are SQL
numerics; modelled as integers (the JS `>` and `/` coerce the summed values
numerically). -/
structure RetrievalStatsRow where
  day : String
  miner_id : String
  total : Int
  successful : Int
deriving DecidableEq, Repr

/-- The SQL `WHERE day >= $1 AND day <= $2` filter of both retrieval-stats
queries, with dates in their canonical string form. -/
def dayInRange (filter : Filter) (day : String) : Bool :=
  jsGE day filter.«from» && jsGE filter.«to» day

/-- Add one row's `total` / `successful` into the group keyed `k` of an
accumulator, creating the group if absent. -/
def addGroup : List (String × Int × Int) → String → Int → Int → List (String × Int × Int)
  | [], k, t, s => [(k, t, s)]
  | (k', t', s') :: rest, k, t, s =>
      if k' = k then (k', t' + t, s' + s) :: rest
      else (k', t', s') :: addGroup rest k t s

/-- `SELECT key, SUM(total), SUM(successful) ... GROUP BY key`: group the rows
by a key and sum `total` and `successful` within each group. -/
def groupSumBy (key : RetrievalStatsRow → String) (rows : List RetrievalStatsRow) :
    List (String × Int × Int) :=
  rows.foldl (fun acc r => addGroup acc (key r) r.total r.successful) []

/-- One element of `fetchRetrievalSuccessRate`'s result:
`{ day, success_rate }` with `success_rate` null when the group's total is not
positive. -/
structure DayRSR where
  day : String
  success_rate : Option ℚ
deriving DecidableEq, Repr

/-- One element of `fetchMinersRSRSummary`'s result. -/
structure MinerRSR where
  miner_id : String
  success_rate : Option ℚ
deriving DecidableEq, Repr

/-- `fetchRetrievalSuccessRate` of `src/lib/stats-fetchers.js`: sum `total` and
`successful` per day over the rows in the requested range, then map each group
to `{ day, success_rate: total > 0 ? successful / total : null }`. -/
def fetchRetrievalSuccessRate (db : List RetrievalStatsRow) (filter : Filter) :
    List DayRSR :=
  (groupSumBy (fun r => r.day) (db.filter (fun r => dayInRange filter r.day))).map
    (fun g => ⟨g.1, if g.2.1 > 0 then some ((g.2.2 : ℚ) / (g.2.1 : ℚ)) else none⟩)

/-- `fetchMinersRSRSummary` of `src/lib/stats-fetchers.js`: the same guarded
success-rate computation, grouped by `miner_id`. -/
def fetchMinersRSRSummary (db : List RetrievalStatsRow) (filter : Filter) :
    List MinerRSR :=
  (groupSumBy (fun r => r.miner_id) (db.filter (fun r => dayInRange filter r.day))).map
    (fun g => ⟨g.1, if g.2.1 > 0 then some ((g.2.2 : ℚ) / (g.2.1 : ℚ)) else none⟩)

lemma matchDateTime_eq_some_false {s d : String}
    (h : matchDateTime s = some (d, false)) :
    d = s ∧ bareDateChars s.data = true := by
  unfold matchDateTime at h
  split at h
  · rename_i hb
    simp only [Option.some.injEq, Prod.mk.injEq] at h
    exact ⟨h.1.symm, hb⟩
  · split at h
    · simp at h
    · simp at h

lemma matchDateTime_eq_some_true {s d : String}
    (h : matchDateTime s = some (d, true)) :
    d.data = s.data.take 10 ∧ bareDateChars d.data = true := by
  unfold matchDateTime at h
  split at h
  · simp at h
  · split at h
    · rename_i hb
      simp only [Option.some.injEq, Prod.mk.injEq] at h
      simp only [Bool.and_eq_true] at hb
      obtain ⟨hd, -⟩ := h
      subst hd
      exact ⟨rfl, hb.1⟩
    · simp at h

lemma matchDateTime_resolved_bare {s d : String} {b : Bool}
    (h : matchDateTime s = some (d, b)) :
    bareDateChars (if b then d else s).data = true := by
  cases b
  · simpa using (matchDateTime_eq_some_false h).2
  · simpa using (matchDateTime_eq_some_true h).2

lemma bare_matchDateTime {s : String} (h : bareDateChars s.data = true) :
    matchDateTime s = some (s, false) := by
  unfold matchDateTime
  rw [if_pos h]

lemma bareDateChars_ne_nil {l : List Char} (h : bareDateChars l = true) : l ≠ [] := by
  intro he
  subst he
  simp [bareDateChars] at h

lemma bareDate_not_isEmpty {s : String} (h : bareDateChars s.data = true) :
    s.isEmpty = false := by
  by_cases he : s = ""
  · subst he
    simp [bareDateChars] at h
  · exact Bool.eq_false_iff.2 (fun hb => he ((String.isEmpty_iff s).1 hb))

/-- Claim C3: when `to` is absent, normalization defaults it to today's UTC
calendar date; when `from` is absent, it defaults to the value `to` holds after
its own defaulting (the supplied `to` when one was given); and whenever either
default was applied the normalizer stops with a 302 Found redirect to
`pathname?from=<from>&to=<to>` carrying `cache-control: public, max-age=600`. -/
theorem default_params_redirect_302 (pathname : String) (fromRaw toRaw : Option String)
    (todayStr : String) (h : toRaw = none ∨ fromRaw = none) :
    normalize pathname fromRaw toRaw todayStr =
      NormOutcome.redirect 302 "public, max-age=600"
        (pathname ++ "?" ++ searchParamsFromTo
          (resolveParam fromRaw (resolveParam toRaw todayStr))
          (resolveParam toRaw todayStr))
        ⟨resolveParam fromRaw (resolveParam toRaw todayStr), resolveParam toRaw todayStr⟩ ∧
    (toRaw = none → resolveParam toRaw todayStr = todayStr) ∧
    (fromRaw = none →
      resolveParam fromRaw (resolveParam toRaw todayStr) = resolveParam toRaw todayStr) := by
  refine ⟨?_, fun ht => by rw [ht]; rfl, fun hf => by rw [hf]; rfl⟩
  rcases h with h | h <;> subst h <;> simp [normalize, blankParam]

/-- Claim C3 witness: a request with neither parameter supplied redirects with
both values set to today. -/
theorem default_params_redirect_302_witness :
    normalize "/retrieval-success-rate" none none "2024-06-01" =
      NormOutcome.redirect 302 "public, max-age=600"
        "/retrieval-success-rate?from=2024-06-01&to=2024-06-01"
        ⟨"2024-06-01", "2024-06-01"⟩ := by
  have h := default_params_redirect_302 "/retrieval-success-rate" none none "2024-06-01"
    (Or.inl rfl)
  simpa using h.1

/-- Claim C7: whenever normalization ends in a redirect or in a `BadRequest`,
the response is independent of the aggregation query function — the query is
never invoked on those paths. -/
theorem no_query_on_redirect_or_error (α : Type) (pathname : String)
    (fromRaw toRaw : Option String) (todayStr boundary : String)
    (f g : Filter → α)
    (h : (∃ st cc loc r, normalize pathname fromRaw toRaw todayStr =
            NormOutcome.redirect st cc loc r) ∨
         (∃ c m, normalize pathname fromRaw toRaw todayStr =
            NormOutcome.badRequest c m)) :
    getStatsWithFilterAndCaching α pathname fromRaw toRaw todayStr boundary f =
      getStatsWithFilterAndCaching α pathname fromRaw toRaw todayStr boundary g := by
  unfold getStatsWithFilterAndCaching
  rcases h with ⟨st, cc, loc, r, h⟩ | ⟨c, m, h⟩ <;> rw [h]

/-- Claim C7 witness: two different query functions produce the same response
on a redirecting request. -/
theorem no_query_on_redirect_or_error_witness :
    getStatsWithFilterAndCaching Nat "/participants/daily" none none
        "2024-06-01" "2024-06-01" (fun _ => 0) =
      getStatsWithFilterAndCaching Nat "/participants/daily" none none
        "2024-06-01" "2024-06-01" (fun _ => 1) :=
  no_query_on_redirect_or_error Nat "/participants/daily" none none
    "2024-06-01" "2024-06-01" (fun _ => 0) (fun _ => 1)
    (Or.inl ⟨302, "public, max-age=600",
      "/participants/daily?from=2024-06-01&to=2024-06-01",
      ⟨"2024-06-01", "2024-06-01"⟩, by decide⟩)

/-- Claim C2: on the canonical (served) path, the data response carries
`public, max-age=600` precisely when `to >= boundary` (the UTC calendar date of
now minus one hour) and `public, max-age=31536000, immutable` otherwise, and
the chosen directive is independent of the query function and its result. -/
theorem data_cache_policy_by_to_boundary (α β : Type) (pathname : String)
    (fromRaw toRaw : Option String) (todayStr boundary : String)
    (f : Filter → α) (g : Filter → β) (r : Filter)
    (h : normalize pathname fromRaw toRaw todayStr = NormOutcome.serve r) :
    (getStatsWithFilterAndCaching α pathname fromRaw toRaw todayStr boundary f).cacheControl =
      some (if jsGE r.«to» boundary then "public, max-age=600"
            else "public, max-age=31536000, immutable") ∧
    (getStatsWithFilterAndCaching α pathname fromRaw toRaw todayStr boundary f).cacheControl =
      (getStatsWithFilterAndCaching β pathname fromRaw toRaw todayStr boundary g).cacheControl := by
  unfold getStatsWithFilterAndCaching
  rw [h]
  exact ⟨rfl, rfl⟩

/-- Claim C2 witness: a fully historical range is served with the one-year
immutable directive, regardless of the query function. -/
theorem data_cache_policy_by_to_boundary_witness :
    (getStatsWithFilterAndCaching Nat "/retrieval-success-rate"
        (some "2023-01-01") (some "2023-12-31") "2024-06-01" "2024-06-01"
        (fun _ => 0)).cacheControl =
      some "public, max-age=31536000, immutable" := by
  have h := data_cache_policy_by_to_boundary Nat String "/retrieval-success-rate"
    (some "2023-01-01") (some "2023-12-31") "2024-06-01" "2024-06-01"
    (fun _ => 0) (fun _ => "") ⟨"2023-01-01", "2023-12-31"⟩ (by decide)
  simpa using h.1

/-- Claim C8: every redirect the normalizer emits has its `location` built as
the request path followed by the query string with `from` first and `to`
second, both values percent-encoded. -/
theorem redirect_location_param_order (pathname : String) (fromRaw toRaw : Option String)
    (todayStr : String) (st : Nat) (cc loc : String) (r : Filter)
    (h : normalize pathname fromRaw toRaw todayStr = NormOutcome.redirect st cc loc r) :
    loc = pathname ++ "?" ++
      ("from=" ++ urlencode r.«from» ++ "&to=" ++ urlencode r.«to») := by
  simp only [normalize] at h
  split at h
  · simp only [NormOutcome.redirect.injEq] at h
    rw [← h.2.2.1, ← h.2.2.2]
    rfl
  · split at h
    · simp at h
    · split at h
      · simp at h
      · split at h
        · simp only [NormOutcome.redirect.injEq] at h
          rw [← h.2.2.1, ← h.2.2.2]
          rfl
        · simp at h

/-- Claim C8 witness: the location of a timestamp-trimming redirect carries
`from` then `to`. -/
theorem redirect_location_param_order_witness :
    "/retrieval-success-rate?from=2024-01-10&to=2024-01-15" =
      "/retrieval-success-rate" ++ "?" ++
        ("from=" ++ urlencode "2024-01-10" ++ "&to=" ++ urlencode "2024-01-15") :=
  redirect_location_param_order "/retrieval-success-rate"
    (some "2024-01-10T13:44:44.289Z") (some "2024-01-15T09:44:44.289Z") "2024-06-01"
    301 "public, max-age=86400" "/retrieval-success-rate?from=2024-01-10&to=2024-01-15"
    ⟨"2024-01-10", "2024-01-15"⟩ (by decide)

/-- Claim C4: when both parameters are supplied (non-blank) and a value matches
neither the bare `YYYY-MM-DD` pattern nor the `YYYY-MM-DDThh:mm:ss.sssZ`
pattern, normalization fails with a `BadRequest` surfaced as status 400 whose
message names the offending parameter and the two accepted formats; the value
is never coerced into a date.  `from` is validated first. -/
theorem malformed_param_bad_request_400 (α : Type) (pathname f t todayStr boundary : String)
    (fetchFn : Filter → α) (hf : f.isEmpty = false) (ht : t.isEmpty = false) :
    (matchDateTime f = none →
      normalize pathname (some f) (some t) todayStr =
        NormOutcome.badRequest 400
          "\"from\" must have format YYYY-MM-DD or YYYY-MM-DDThh:mm:ss.sssZ" ∧
      getStatsWithFilterAndCaching α pathname (some f) (some t) todayStr boundary fetchFn =
        ⟨400, none, none,
          RespBody.text "\"from\" must have format YYYY-MM-DD or YYYY-MM-DDThh:mm:ss.sssZ"⟩) ∧
    (∀ d b, matchDateTime f = some (d, b) → matchDateTime t = none →
      normalize pathname (some f) (some t) todayStr =
        NormOutcome.badRequest 400
          "\"to\" must have format YYYY-MM-DD or YYYY-MM-DDThh:mm:ss.sssZ" ∧
      getStatsWithFilterAndCaching α pathname (some f) (some t) todayStr boundary fetchFn =
        ⟨400, none, none,
          RespBody.text "\"to\" must have format YYYY-MM-DD or YYYY-MM-DDThh:mm:ss.sssZ"⟩) := by
  constructor
  · intro hm
    have hn : normalize pathname (some f) (some t) todayStr =
        NormOutcome.badRequest 400
          "\"from\" must have format YYYY-MM-DD or YYYY-MM-DDThh:mm:ss.sssZ" := by
      simp [normalize, blankParam, resolveParam, hf, ht, hm]
    exact ⟨hn, by unfold getStatsWithFilterAndCaching; rw [hn]⟩
  · intro d b hmf hmt
    have hn : normalize pathname (some f) (some t) todayStr =
        NormOutcome.badRequest 400
          "\"to\" must have format YYYY-MM-DD or YYYY-MM-DDThh:mm:ss.sssZ" := by
      simp [normalize, blankParam, resolveParam, hf, ht, hmf, hmt]
    exact ⟨hn, by unfold getStatsWithFilterAndCaching; rw [hn]⟩

/-- Claim C4 witness: `from=2024/01/01` is rejected with a 400 naming `from`
and the two accepted formats. -/
theorem malformed_param_bad_request_400_witness :
    normalize "/retrieval-success-rate" (some "2024/01/01") (some "2024-01-12") "2024-06-01" =
      NormOutcome.badRequest 400
        "\"from\" must have format YYYY-MM-DD or YYYY-MM-DDThh:mm:ss.sssZ" :=
  ((malformed_param_bad_request_400 Nat "/retrieval-success-rate" "2024/01/01" "2024-01-12"
    "2024-06-01" "2024-06-01" (fun _ => 0) (by decide) (by decide)).1 (by decide)).1

/-- Claim C5: whenever normalization completes without a redirect and without a
`BadRequest`, both fields of the returned range are bare `YYYY-MM-DD` strings —
ten characters, digits in the date positions, hyphens between, hence no
time-of-day and no timezone offset. -/
theorem serve_range_bare_dates (pathname : String) (fromRaw toRaw : Option String)
    (todayStr : String) (r : Filter)
    (h : normalize pathname fromRaw toRaw todayStr = NormOutcome.serve r) :
    bareDateChars r.«from».data = true ∧ bareDateChars r.«to».data = true := by
  simp only [normalize] at h
  split at h
  · simp at h
  · split at h
    · simp at h
    · rename_i hmf
      split at h
      · simp at h
      · rename_i hmt
        split at h
        · simp at h
        · rename_i hnotrim
          simp only [NormOutcome.serve.injEq] at h
          subst h
          simp only [Bool.or_eq_true, not_or, Bool.not_eq_true] at hnotrim
          obtain ⟨hfb, htb⟩ := hnotrim
          subst hfb htb
          exact ⟨matchDateTime_resolved_bare hmf, matchDateTime_resolved_bare hmt⟩

/-- Claim C5 witness: a served request with bare dates yields a range of bare
dates. -/
theorem serve_range_bare_dates_witness :
    bareDateChars ("2024-01-11" : String).data = true ∧
    bareDateChars ("2024-01-12" : String).data = true := by
  have h := serve_range_bare_dates "/retrieval-success-rate"
    (some "2024-01-11") (some "2024-01-12") "2024-06-01"
    ⟨"2024-01-11", "2024-01-12"⟩ (by decide)
  exact h

/-- Claim C1 counterexample: for a request supplying both parameters in the
timestamp form, the 301 redirect's `cache-control` is
`public, max-age=86400` (one day, from `max-age=${24 * 3600}` in the source),
not the claimed `public, max-age=31536000, immutable`. -/
theorem trim_redirect_cache_not_one_year :
    normalize "/retrieval-success-rate" (some "2024-01-10T13:44:44.289Z")
        (some "2024-01-15T09:44:44.289Z") "2024-06-01" =
      NormOutcome.redirect 301 "public, max-age=86400"
        "/retrieval-success-rate?from=2024-01-10&to=2024-01-15"
        ⟨"2024-01-10", "2024-01-15"⟩ ∧
    "public, max-age=86400" ≠ "public, max-age=31536000, immutable" :=
  ⟨by decide, by decide⟩

/-- Claim C1 (amended): when both parameters are supplied and at least one
matches the timestamp form `YYYY-MM-DDThh:mm:ss.sssZ`, normalization stops with
a 301 Moved Permanently redirect to the same path with both values truncated to
bare `YYYY-MM-DD` (a timestamp-form value is replaced by its first ten
characters), and that redirect carries `cache-control: public, max-age=86400`
(one day, not marked immutable). -/
theorem trim_redirect_one_day_cache (pathname f t todayStr : String)
    (fd : String) (fb : Bool) (td : String) (tb : Bool)
    (hf : f.isEmpty = false) (ht : t.isEmpty = false)
    (hmf : matchDateTime f = some (fd, fb))
    (hmt : matchDateTime t = some (td, tb))
    (htrim : (fb || tb) = true) :
    normalize pathname (some f) (some t) todayStr =
      NormOutcome.redirect 301 "public, max-age=86400"
        (pathname ++ "?" ++ searchParamsFromTo (if fb then fd else f) (if tb then td else t))
        ⟨if fb then fd else f, if tb then td else t⟩ ∧
    bareDateChars (if fb then fd else f).data = true ∧
    bareDateChars (if tb then td else t).data = true ∧
    (fb = true → fd.data = f.data.take 10) ∧
    (tb = true → td.data = t.data.take 10) := by
  refine ⟨?_, matchDateTime_resolved_bare hmf, matchDateTime_resolved_bare hmt,
    fun hb => (matchDateTime_eq_some_true (hb ▸ hmf)).1,
    fun hb => (matchDateTime_eq_some_true (hb ▸ hmt)).1⟩
  simp [normalize, blankParam, resolveParam, hf, ht, hmf, hmt, htrim]

/-- Claim C1 witness: a timestamp-form `from` with a bare `to` triggers the
301 trim redirect with the one-day cache directive. -/
theorem trim_redirect_one_day_cache_witness :
    normalize "/participants/daily" (some "2024-01-10T13:44:44.289Z")
        (some "2024-01-15") "2024-06-01" =
      NormOutcome.redirect 301 "public, max-age=86400"
        "/participants/daily?from=2024-01-10&to=2024-01-15"
        ⟨"2024-01-10", "2024-01-15"⟩ := by
  have h := trim_redirect_one_day_cache "/participants/daily"
    "2024-01-10T13:44:44.289Z" "2024-01-15" "2024-06-01"
    "2024-01-10" true "2024-01-15" false
    (by decide) (by decide) (by decide) (by decide) (by decide)
  simpa using h.1

/-- Claim C6 counterexample: defaulting runs before validation, so a request
with a timestamp-form `from` and no `to` receives a 302 whose target echoes the
un-trimmed `from`; re-requesting that target triggers a further redirect
(a 301), contradicting the claim that re-requesting a redirect target never
redirects again. -/
theorem redirect_target_not_idempotent :
    normalize "/retrieval-success-rate" (some "2024-01-10T13:44:44.289Z") none "2024-06-01" =
      NormOutcome.redirect 302 "public, max-age=600"
        "/retrieval-success-rate?from=2024-01-10T13%3A44%3A44.289Z&to=2024-06-01"
        ⟨"2024-01-10T13:44:44.289Z", "2024-06-01"⟩ ∧
    normalize "/retrieval-success-rate" (some "2024-01-10T13:44:44.289Z") (some "2024-06-01")
        "2024-06-01" =
      NormOutcome.redirect 301 "public, max-age=86400"
        "/retrieval-success-rate?from=2024-01-10&to=2024-06-01"
        ⟨"2024-01-10", "2024-06-01"⟩ :=
  ⟨by decide, by decide⟩

/-- Claim C6 (amended): re-requesting a 301 redirect target as-is triggers no
further redirect and no error; the same holds for a 302 target whenever the
values it carries are bare `YYYY-MM-DD` strings (in particular whenever the
defaults were today's date and any supplied value was already bare).  A 302
target that echoes a not-yet-validated timestamp-form or malformed value may
trigger a further 301 or a 400 instead. -/
theorem redirect_target_idempotent_amended (pathname : String)
    (fromRaw toRaw : Option String) (todayStr : String)
    (st : Nat) (cc loc : String) (r : Filter)
    (h : normalize pathname fromRaw toRaw todayStr = NormOutcome.redirect st cc loc r)
    (hb : st = 301 ∨ (bareDateChars r.«from».data = true ∧ bareDateChars r.«to».data = true)) :
    normalize pathname (some r.«from») (some r.«to») todayStr = NormOutcome.serve r := by
  have hbb : bareDateChars r.«from».data = true ∧ bareDateChars r.«to».data = true := by
    rcases hb with h301 | hbb
    · subst h301
      simp only [normalize] at h
      split at h
      · simp only [NormOutcome.redirect.injEq] at h
        exact absurd h.1 (by decide)
      · split at h
        · simp at h
        · rename_i hmf
          split at h
          · simp at h
          · rename_i hmt
            split at h
            · simp only [NormOutcome.redirect.injEq] at h
              rw [← h.2.2.2]
              exact ⟨matchDateTime_resolved_bare hmf, matchDateTime_resolved_bare hmt⟩
            · simp at h
    · exact hbb
  obtain ⟨hfb, htb⟩ := hbb
  have hfe := bareDate_not_isEmpty hfb
  have hte := bareDate_not_isEmpty htb
  have hmf := bare_matchDateTime hfb
  have hmt := bare_matchDateTime htb
  simp [normalize, blankParam, resolveParam, hfe, hte, hmf, hmt]

/-- Claim C6 witness: the target of the 301 redirect for a pair of
timestamp-form parameters is served unchanged when re-requested. -/
theorem redirect_target_idempotent_amended_witness :
    normalize "/retrieval-success-rate" (some "2024-01-10") (some "2024-01-15") "2024-06-01" =
      NormOutcome.serve ⟨"2024-01-10", "2024-01-15"⟩ :=
  redirect_target_idempotent_amended "/retrieval-success-rate"
    (some "2024-01-10T13:44:44.289Z") (some "2024-01-15T09:44:44.289Z") "2024-06-01"
    301 "public, max-age=86400" "/retrieval-success-rate?from=2024-01-10&to=2024-01-15"
    ⟨"2024-01-10", "2024-01-15"⟩ (by decide) (Or.inl rfl)

/-- Claim C9: an empty-string `from` or `to` is treated exactly like an absent
parameter; a `BadRequest` can only arise when both parameters are present and
non-empty; and a malformed supplied `from` together with an absent `to` yields
a 302 whose location echoes the unvalidated `from`. -/
theorem blank_params_treated_as_absent :
    (∀ (pathname : String) (fromRaw : Option String) (todayStr : String),
      normalize pathname fromRaw (some "") todayStr =
        normalize pathname fromRaw none todayStr) ∧
    (∀ (pathname : String) (toRaw : Option String) (todayStr : String),
      normalize pathname (some "") toRaw todayStr =
        normalize pathname none toRaw todayStr) ∧
    (∀ (pathname : String) (fromRaw toRaw : Option String) (todayStr : String)
        (c : Nat) (m : String),
      normalize pathname fromRaw toRaw todayStr = NormOutcome.badRequest c m →
      ∃ f t, fromRaw = some f ∧ f.isEmpty = false ∧ toRaw = some t ∧ t.isEmpty = false) ∧
    (∀ (pathname f todayStr : String), f.isEmpty = false → matchDateTime f = none →
      normalize pathname (some f) none todayStr =
        NormOutcome.redirect 302 "public, max-age=600"
          (pathname ++ "?" ++ searchParamsFromTo f todayStr) ⟨f, todayStr⟩) := by
  refine ⟨fun p fr td => rfl, fun p tr td => rfl, ?_, ?_⟩
  · intro p fr tr td c m h
    simp only [normalize] at h
    split at h
    · simp at h
    · rename_i hcond
      simp only [Bool.or_eq_true, not_or, Bool.not_eq_true] at hcond
      obtain ⟨hbt, hbf⟩ := hcond
      cases fr with
      | none => simp [blankParam] at hbf
      | some f =>
        cases tr with
        | none => simp [blankParam] at hbt
        | some t =>
          exact ⟨f, t, rfl, by simpa [blankParam] using hbf, rfl,
            by simpa [blankParam] using hbt⟩
  · intro p f td hfe hm
    simp [normalize, blankParam, resolveParam, hfe]

/-- Claim C9 witness: a malformed `from` with an absent `to` produces a 302
(not a 400) whose location echoes the raw `from`. -/
theorem blank_params_treated_as_absent_witness :
    normalize "/retrieval-success-rate" (some "garbage") none "2024-06-01" =
      NormOutcome.redirect 302 "public, max-age=600"
        ("/retrieval-success-rate" ++ "?" ++ searchParamsFromTo "garbage" "2024-06-01")
        ⟨"garbage", "2024-06-01"⟩ :=
  blank_params_treated_as_absent.2.2.2 "/retrieval-success-rate" "garbage" "2024-06-01"
    (by decide) (by decide)

/-- Claim C10: in both success-rate queries the division is guarded — every
result row comes from a summed group, and its `success_rate` is
`successful / total` when the group's summed `total` is positive and null
otherwise; a non-positive total never reaches the division. -/
theorem success_rate_division_guarded (db : List RetrievalStatsRow) (filter : Filter) :
    (∀ stat ∈ fetchRetrievalSuccessRate db filter,
      ∃ t s : Int,
        (stat.day, t, s) ∈
          groupSumBy (fun r => r.day) (db.filter (fun r => dayInRange filter r.day)) ∧
        (0 < t → stat.success_rate = some ((s : ℚ) / (t : ℚ))) ∧
        (t ≤ 0 → stat.success_rate = none)) ∧
    (∀ stat ∈ fetchMinersRSRSummary db filter,
      ∃ t s : Int,
        (stat.miner_id, t, s) ∈
          groupSumBy (fun r => r.miner_id) (db.filter (fun r => dayInRange filter r.day)) ∧
        (0 < t → stat.success_rate = some ((s : ℚ) / (t : ℚ))) ∧
        (t ≤ 0 → stat.success_rate = none)) := by
  constructor
  · intro stat hmem
    unfold fetchRetrievalSuccessRate at hmem
    obtain ⟨g, hg, rfl⟩ := List.mem_map.1 hmem
    refine ⟨g.2.1, g.2.2, hg, fun h0 => ?_, fun hle => ?_⟩
    · show (if g.2.1 > 0 then some ((g.2.2 : ℚ) / (g.2.1 : ℚ)) else none) =
        some ((g.2.2 : ℚ) / (g.2.1 : ℚ))
      rw [if_pos h0]
    · show (if g.2.1 > 0 then some ((g.2.2 : ℚ) / (g.2.1 : ℚ)) else none) = none
      rw [if_neg (not_lt.2 hle)]
  · intro stat hmem
    unfold fetchMinersRSRSummary at hmem
    obtain ⟨g, hg, rfl⟩ := List.mem_map.1 hmem
    refine ⟨g.2.1, g.2.2, hg, fun h0 => ?_, fun hle => ?_⟩
    · show (if g.2.1 > 0 then some ((g.2.2 : ℚ) / (g.2.1 : ℚ)) else none) =
        some ((g.2.2 : ℚ) / (g.2.1 : ℚ))
      rw [if_pos h0]
    · show (if g.2.1 > 0 then some ((g.2.2 : ℚ) / (g.2.1 : ℚ)) else none) = none
      rw [if_neg (not_lt.2 hle)]

/-- Claim C10 witness: a concrete day group whose summed `total` is zero is
reported with a null success rate, and the theorem's guard applies to it. -/
theorem success_rate_division_guarded_witness :
    ∃ t s : Int,
      ("2024-01-10", t, s) ∈
        groupSumBy (fun r => r.day)
          (([⟨"2024-01-10", "f1one", 0, 0⟩] : List RetrievalStatsRow).filter
            (fun r => dayInRange ⟨"2024-01-01", "2024-12-31"⟩ r.day)) ∧
      (0 < t → (none : Option ℚ) = some ((s : ℚ) / (t : ℚ))) ∧
      (t ≤ 0 → (none : Option ℚ) = none) :=
  (success_rate_division_guarded
      [⟨"2024-01-10", "f1one", 0, 0⟩] ⟨"2024-01-01", "2024-12-31"⟩).1
    ⟨"2024-01-10", (none : Option ℚ)⟩ (by decide)

end VoyagerStats
